import Mathlib

/-!
Verification development for the form-submission service.

The development shallowly embeds the serverless handler in
src/src/functions/index.cjs (validator, captcha gate, duplicate check,
persistence, CSV export, admin-key check) and the express variant in
src/src/services/server.ts (the /to_csv authorization logic).

JavaScript values that the code inspects are modelled by the inductive
type JSVal; a JavaScript object is an association list of string keys to
values (key order is insertion order, as in JS).  Property access
body.x is modelled by getF, which yields none for an absent key
(JavaScript undefined).  JavaScript truthiness on the modelled values is
the function truthy ("" and 0 are falsy; NaN is not modelled).
-/

inductive JSVal where
  | str (s : String)
  | num (n : Int)
  | boolean (b : Bool)
  | null
  | date (t : Nat)
deriving DecidableEq, Repr

abbrev Obj : Type := List (String × JSVal)

/-- Property lookup: body.k, none = undefined. -/
def getF (b : Obj) (k : String) : Option JSVal :=
  (b.find? (fun p => p.1 = k)).map (fun p => p.2)

/-- JavaScript truthiness of a possibly-absent value ("!x" is "!truthy x"). -/
def truthy : Option JSVal → Bool
  | some (.str s) => decide (s ≠ "")
  | some (.num n) => decide (n ≠ 0)
  | some (.boolean b) => b
  | some .null => false
  | some (.date _) => true
  | none => false

/-- typeof x === "string" (false for absent values). -/
def isString : Option JSVal → Bool
  | some (.str _) => true
  | _ => false

/-- typeof x === "number" (false for absent values). -/
def isNumber : Option JSVal → Bool
  | some (.num _) => true
  | _ => false

/-- The string content of a value known to be a string (dummy otherwise). -/
def strOf : Option JSVal → String
  | some (.str s) => s
  | _ => ""

/-- The character class \\s of JavaScript regular expressions
(space, tab, line terminators, and the unicode space separators),
compared by codepoint. -/
def isJsSpace (c : Char) : Bool :=
  c.toNat = 0x20 || c.toNat = 0x9 || c.toNat = 0xa || c.toNat = 0xd ||
  c.toNat = 0xb || c.toNat = 0xc || c.toNat = 0xa0 || c.toNat = 0x1680 ||
  (0x2000 ≤ c.toNat && c.toNat ≤ 0x200a) ||
  c.toNat = 0x2028 || c.toNat = 0x2029 || c.toNat = 0x202f ||
  c.toNat = 0x205f || c.toNat = 0x3000 || c.toNat = 0xfeff

/--
emailRegex.test(s) for the source regex /^[^\s@]+@[^\s@]+\.[^\s@]+$/.

A string matches that anchored pattern iff it splits at its unique "@"
into a nonempty space-free local part and a space-free domain part that
contains a "." strictly inside it (neither first nor last character):
both regex pieces around the escaped dot are nonempty runs of
non-space non-@ characters, which may themselves contain dots, so any
interior dot provides a split and a leading or trailing dot provides
none.  All parts produced by splitting at "@" are @-free by construction,
and more than one "@" in the string makes a match impossible.
-/
def splitOnChar (sep : Char) : List Char → List (List Char)
  | [] => [[]]
  | c :: cs =>
    if c = sep then [] :: splitOnChar sep cs
    else
      match splitOnChar sep cs with
      | h :: t => (c :: h) :: t
      | [] => [[c]]

def emailRegexTest (s : String) : Bool :=
  match splitOnChar '@' s.data with
  | [lp, dp] =>
    decide (lp ≠ []) && lp.all (fun c => !isJsSpace c) &&
    dp.all (fun c => !isJsSpace c) &&
    ((dp.drop 1).dropLast.contains '.')
  | _ => false

/-- Result shape of isValidFormData: valid:true, or valid:false with error. -/
inductive ValidationResult where
  | ok
  | err (e : String)
deriving DecidableEq, Repr

/- The boolean guards of isValidFormData, one per source condition. -/

/-- !body.captchaToken || typeof body.captchaToken !== "string" -/
def failsToken (b : Obj) : Bool :=
  !truthy (getF b "captchaToken") || !isString (getF b "captchaToken")

/-- !body.name || typeof body.name !== "string" -/
def failsName (b : Obj) : Bool :=
  !truthy (getF b "name") || !isString (getF b "name")

/-- !body.roll_number || typeof body.roll_number !== "number" -/
def failsRoll (b : Obj) : Bool :=
  !truthy (getF b "roll_number") || !isNumber (getF b "roll_number")

/-- !body.gender || (body.gender !== "M" && body.gender !== "F") -/
def failsGender (b : Obj) : Bool :=
  !truthy (getF b "gender") ||
    !(decide (getF b "gender" = some (JSVal.str "M")) ||
      decide (getF b "gender" = some (JSVal.str "F")))

/-- !body.email || typeof body.email !== "string" -/
def failsEmailPresent (b : Obj) : Bool :=
  !truthy (getF b "email") || !isString (getF b "email")

/-- !body.about || typeof body.about !== "string" -/
def failsAbout (b : Obj) : Bool :=
  !truthy (getF b "about") || !isString (getF b "about")

/-- !emailRegex.test(body.email) -/
def failsEmailFormat (b : Obj) : Bool :=
  !emailRegexTest (strOf (getF b "email"))

/-- body[field] !== undefined && typeof body[field] !== "string" -/
def badOptional (b : Obj) (f : String) : Bool :=
  (getF b f).isSome && !isString (getF b f)

def optionalStringFields : List String :=
  ["github_link", "linkedin_link", "instagram_link", "team_name",
   "referrer_name", "referrer_email"]

/-- The for-loop over optionalStringFields: first offending field, if any. -/
def firstBadOptional (b : Obj) : List String → Option String
  | [] => none
  | f :: rest => if badOptional b f then some f else firstBadOptional b rest

/-- body.referrer_email && !emailRegex.test(body.referrer_email) -/
def failsReferrer (b : Obj) : Bool :=
  truthy (getF b "referrer_email") &&
    !emailRegexTest (strOf (getF b "referrer_email"))

/--
isValidFormData from src/src/functions/index.cjs lines 70-121.  The
input none models a request body that is not an object (or is null);
each branch returns the exact error string of the source.
-/
def isValidFormData : Option Obj → ValidationResult
  | none => .err "Request body must be an object"
  | some body =>
    if failsToken body then .err "CAPTCHA token is required"
    else if failsName body then .err "Name is required and must be a string"
    else if failsRoll body then
      .err "Roll number is required and must be a number"
    else if failsGender body then
      .err "Gender is required and must be \x27M\x27 or \x27F\x27"
    else if failsEmailPresent body then
      .err "Email is required and must be a string"
    else if failsAbout body then
      .err "About is required and must be a string"
    else if failsEmailFormat body then .err "Invalid email format"
    else
      match firstBadOptional body optionalStringFields with
      | some f => .err (f ++ " must be a string if provided")
      | none =>
        if failsReferrer body then .err "Invalid referrer email format"
        else .ok

/- Validation restated as an ordered rule list (used to settle the
rule-order claim): each rule yields the reason it would fail with, and
evaluation takes the first failure.  The list is in the order the source
evaluates its checks. -/

def ruleToken (b : Obj) : Option String :=
  if failsToken b then some "CAPTCHA token is required" else none

def ruleName (b : Obj) : Option String :=
  if failsName b then some "Name is required and must be a string" else none

def ruleRoll (b : Obj) : Option String :=
  if failsRoll b then some "Roll number is required and must be a number"
  else none

def ruleGender (b : Obj) : Option String :=
  if failsGender b then
    some "Gender is required and must be \x27M\x27 or \x27F\x27"
  else none

def ruleEmailPresent (b : Obj) : Option String :=
  if failsEmailPresent b then some "Email is required and must be a string"
  else none

def ruleAbout (b : Obj) : Option String :=
  if failsAbout b then some "About is required and must be a string" else none

def ruleEmailFormat (b : Obj) : Option String :=
  if failsEmailFormat b then some "Invalid email format" else none

def ruleOptionalTypes (b : Obj) : Option String :=
  (firstBadOptional b optionalStringFields).map
    (fun f => f ++ " must be a string if provided")

def ruleReferrerFormat (b : Obj) : Option String :=
  if failsReferrer b then some "Invalid referrer email format" else none

/-- The rule order actually implemented by isValidFormData: the
about-presence rule runs before the email-format rule. -/
def codeOrderRules : List (Obj → Option String) :=
  [ruleToken, ruleName, ruleRoll, ruleGender, ruleEmailPresent, ruleAbout,
   ruleEmailFormat, ruleOptionalTypes, ruleReferrerFormat]

def firstFailure (b : Obj) : List (Obj → Option String) → Option String
  | [] => none
  | r :: rs =>
    match r b with
    | some e => some e
    | none => firstFailure b rs

/-- First-failure-wins evaluation of the ordered rule list. -/
def specValidate : Option Obj → ValidationResult
  | none => .err "Request body must be an object"
  | some b =>
    match firstFailure b codeOrderRules with
    | some e => .err e
    | none => .ok

/- The abuse-check collaborator (verifyCaptcha, index.cjs lines 5-51).
The HTTP exchange with the verification service is external: the
collaborator response is a parameter.  none for the response models the
fetch or JSON parse throwing (the catch branch). -/

/-- Parsed body of the siteverify response: success flag, optional score. -/
structure SiteVerifyResp where
  success : Bool
  score : Option Rat
deriving DecidableEq

/-- What verifyCaptcha resolves to: {success, error?}. -/
structure CaptchaOutcome where
  success : Bool
  error : Option String
deriving DecidableEq

/-- verifyCaptcha from index.cjs lines 5-51, with the network exchange
abstracted into the resp parameter.  secretKey none or "" is a falsy
GOOGLE_CAPTCHA_SECRET_KEY. -/
def verifyCaptcha (token : Option JSVal) (secretKey : Option String)
    (resp : Option SiteVerifyResp) : CaptchaOutcome :=
  if !truthy token then
    { success := false, error := some "CAPTCHA token is required" }
  else
    match secretKey with
    | none => { success := false, error := some "reCAPTCHA not configured on server" }
    | some sk =>
      if sk = "" then
        { success := false, error := some "reCAPTCHA not configured on server" }
      else
        match resp with
        | none => { success := false, error := some "CAPTCHA verification error" }
        | some d =>
          if !d.success then
            { success := false, error := some "CAPTCHA verification failed" }
          else
            match d.score with
            | some q =>
              if q < mkRat 1 2 then
                { success := false,
                  error := some "CAPTCHA score too low, please try again" }
              else { success := true, error := none }
            | none => { success := true, error := none }

/- The submission pipeline (POST /submit handler, index.cjs lines
180-272).  The MongoDB collection is modelled as a list of documents in
insertion order; findOne returns the first match.  Store interactions
are recorded as a list of operations so that claims about "no store
call" are statements about the trace. -/

inductive StoreOp where
  | connect
  | findDup
  | insertDoc
  | close
deriving DecidableEq

/-- Rest-destructuring: const { captchaToken, ...dataToSave } = formData. -/
def removeKey (o : Obj) (k : String) : Obj :=
  o.filter (fun p => p.1 ≠ k)

/-- Object-spread update { ...o, k: v }: an existing key keeps its
position and takes the new value, a fresh key is appended. -/
def setKey (o : Obj) (k : String) (v : JSVal) : Obj :=
  if o.any (fun p => p.1 = k) then
    o.map (fun p => if p.1 = k then (k, v) else p)
  else o ++ [(k, v)]

/-- The document passed to insertOne: { ...dataToSave, createdAt: new
Date(), submittedAt: new Date().toISOString() }.  The two clock reads
are the parameters t (structured) and iso (its ISO-8601 text). -/
def persistedDoc (b : Obj) (t : Nat) (iso : String) : Obj :=
  setKey (setKey (removeKey b "captchaToken") "createdAt" (JSVal.date t))
    "submittedAt" (JSVal.str iso)

/-- findOne({ $or: [{ roll_number: d.roll_number }, { email: d.email }] }). -/
def findDuplicate (store : List Obj) (d : Obj) : Option Obj :=
  store.find? (fun e =>
    decide (getF e "roll_number" = getF d "roll_number") ||
    decide (getF e "email" = getF d "email"))

inductive SubmitOutcome where
  | validationErr (reason : String)
  | captchaErr (reason : String)
  | duplicate (field : String)
  | success
deriving DecidableEq

structure SubmitTrace where
  outcome : SubmitOutcome
  ops : List StoreOp
  store : List Obj
deriving DecidableEq

/-- The POST /submit pipeline of index.cjs lines 180-272: validate,
verify the captcha, connect, duplicate-check on roll_number or email
(the error names "roll number" when the found document matches on
roll_number, "email" otherwise), insert with the two server timestamps.
Validation and captcha failures return before any store operation. -/
def submitPipeline (secretKey : Option String) (resp : Option SiteVerifyResp)
    (store : List Obj) (body : Option Obj) (t : Nat) (iso : String) :
    SubmitTrace :=
  match isValidFormData body with
  | .err e => { outcome := .validationErr e, ops := [], store := store }
  | .ok =>
    let b := body.getD []
    let cap := verifyCaptcha (getF b "captchaToken") secretKey resp
    if !cap.success then
      { outcome := .captchaErr (cap.error.getD ""), ops := [], store := store }
    else
      let dataToSave := removeKey b "captchaToken"
      match findDuplicate store dataToSave with
      | some existing =>
        { outcome := .duplicate
            (if getF existing "roll_number" = getF dataToSave "roll_number"
             then "roll number" else "email"),
          ops := [.connect, .findDup, .close],
          store := store }
      | none =>
        { outcome := .success,
          ops := [.connect, .findDup, .insertDoc, .close],
          store := store ++ [persistedDoc b t iso] }

/- Admin-key comparison and the CSV export endpoint. -/

/-- validateAdminKey from index.cjs lines 124-141.  Buffer.from yields
the UTF-8 bytes of the string; crypto.timingSafeEqual on equal-length
buffers decides byte equality, and UTF-8 encoding is injective, so the
comparison is modelled as a length check followed by string equality.
A falsy (absent or empty) provided or configured key is refused first. -/
def validateAdminKey (providedKey actualKey : Option String) : Bool :=
  match providedKey, actualKey with
  | some p, some a =>
    if p = "" || a = "" then false
    else if p.utf8ByteSize ≠ a.utf8ByteSize then false
    else decide (p = a)
  | _, _ => false

/-- value.replace(/"/g, a doubled quote) on the characters of s. -/
def escapeQuotes (s : String) : String :=
  String.mk (s.data.foldr
    (fun c acc => if c = '"' then '"' :: '"' :: acc else c :: acc) [])

/-- One serialized CSV cell, as produced inside the row map of the /csv
handler: strings are quote-escaped and wrapped in double quotes; other
values pass through to Array.prototype.join, which renders numbers and
booleans in decimal/text form and absent values (and null) as empty
text.  Date rendering is the toString of the Date object; its exact
text is environment-defined and modelled here as an opaque tag around
the clock value. -/
def jsToCsvValue : Option JSVal → String
  | some (.str s) => "\"" ++ escapeQuotes s ++ "\""
  | some (.num n) => toString n
  | some (.boolean b) => if b then "true" else "false"
  | some .null => ""
  | some (.date t) => "Date(" ++ toString t ++ ")"
  | none => ""

/-- headers.map(field => cell).join(",") for one document row. -/
def csvRow (headers : List String) (row : Obj) : String :=
  String.intercalate "," (headers.map (fun f => jsToCsvValue (getF row f)))

/-- The CSV text built by the /csv handler for a non-empty collection:
header row from the first document keys, then one row per document,
joined by newlines. -/
def csvOfDocs (docs : List Obj) : String :=
  let headers := (docs.headD []).map (fun p => p.1)
  String.intercalate "\n"
    (String.intercalate "," headers :: docs.map (csvRow headers))

inductive Payload where
  | jsonErr (msg : String)
  | text (s : String)
deriving DecidableEq

structure CsvResp where
  status : Nat
  contentType : String
  payload : Payload
deriving DecidableEq

/-- The GET /csv handler of index.cjs lines 275-346: the resolved admin
key (header or query) is checked with validateAdminKey; on failure the
handler answers 401 with a JSON error and no CSV is produced; an empty
collection yields an empty 200 text/csv body; otherwise the serialized
collection is returned as text/csv. -/
def csvEndpoint (providedKey actualKey : Option String) (docs : List Obj) :
    CsvResp :=
  if !validateAdminKey providedKey actualKey then
    { status := 401, contentType := "application/json",
      payload := .jsonErr "Invalid admin key" }
  else if docs.length = 0 then
    { status := 200, contentType := "text/csv", payload := .text "" }
  else
    { status := 200, contentType := "text/csv",
      payload := .text (csvOfDocs docs) }

/-- The authorization logic of GET /to_csv in src/src/services/server.ts
lines 105-128: absent or empty admin key or query key answers 403; a
length mismatch or unequal keys answers 403; only an exact match serves
the CSV.  The result is the status code paired with whether the CSV body
is served. -/
def toCsvEndpoint : Option String → Option String → Nat × Bool
  | some a, some p =>
    if a = "" || p = "" then (403, false)
    else if a.utf8ByteSize = p.utf8ByteSize && decide (a = p) then (200, true)
    else (403, false)
  | _, _ => (403, false)

/- Spec-side characterizations of the validator conditions, written in
the vocabulary of the specification (presence, type, pattern), to be
compared with the guards of isValidFormData. -/

/-- The field is present, of text type, and non-empty. -/
def presentNonEmptyString : Option JSVal → Bool
  | some (.str s) => decide (s ≠ "")
  | _ => false

/-- The field is present, numeric, and non-zero. -/
def presentNonZeroNumber : Option JSVal → Bool
  | some (.num n) => decide (n ≠ 0)
  | _ => false

/-- The field is exactly the text M or the text F. -/
def genderFieldOk (v : Option JSVal) : Bool :=
  decide (v = some (JSVal.str "M")) || decide (v = some (JSVal.str "F"))

/-- The field is a present non-empty text matching the email pattern. -/
def emailFieldOk : Option JSVal → Bool
  | some (.str s) => decide (s ≠ "") && emailRegexTest s
  | _ => false

/-- An optional field is either absent or of text type. -/
def optionalOk : Option JSVal → Bool
  | none => true
  | some (.str _) => true
  | some _ => false

/-- The referrer email is absent, empty, or matches the email pattern. -/
def referrerOk : Option JSVal → Bool
  | none => true
  | some (.str s) => decide (s = "") || emailRegexTest s
  | some _ => false

/-- A record every rule of the validator accepts, stated field by field. -/
def acceptableRecord (b : Obj) : Bool :=
  presentNonEmptyString (getF b "captchaToken") &&
  presentNonEmptyString (getF b "name") &&
  presentNonZeroNumber (getF b "roll_number") &&
  genderFieldOk (getF b "gender") &&
  emailFieldOk (getF b "email") &&
  presentNonEmptyString (getF b "about") &&
  optionalStringFields.all (fun f => optionalOk (getF b f)) &&
  referrerOk (getF b "referrer_email")

/-- The required fields of the data model with the reason string the
validator reports for each. -/
def requiredFields : List (String × String) :=
  [("captchaToken", "CAPTCHA token is required"),
   ("name", "Name is required and must be a string"),
   ("roll_number", "Roll number is required and must be a number"),
   ("gender", "Gender is required and must be \x27M\x27 or \x27F\x27"),
   ("email", "Email is required and must be a string"),
   ("about", "About is required and must be a string")]

/-- Presence and well-typedness of one required field (the check the
rule for that field applies, format checks excluded). -/
def requiredFieldOk (b : Obj) : String → Bool
  | "roll_number" => presentNonZeroNumber (getF b "roll_number")
  | "gender" => genderFieldOk (getF b "gender")
  | f => presentNonEmptyString (getF b f)

/- Bridging lemmas between the source guards and the spec predicates. -/

theorem failsStr_eq (v : Option JSVal) :
    (!truthy v || !isString v) = !presentNonEmptyString v := by
  rcases v with _ | x
  · rfl
  · cases x <;> simp [truthy, isString, presentNonEmptyString]

theorem failsNum_eq (v : Option JSVal) :
    (!truthy v || !isNumber v) = !presentNonZeroNumber v := by
  rcases v with _ | x
  · rfl
  · cases x <;> simp [truthy, isNumber, presentNonZeroNumber]

theorem failsGenderV_eq (v : Option JSVal) :
    (!truthy v ||
      !(decide (v = some (JSVal.str "M")) || decide (v = some (JSVal.str "F"))))
      = !genderFieldOk v := by
  rcases v with _ | x
  · rfl
  · cases x with
    | str s =>
      by_cases hM : s = "M"
      · subst hM; decide
      · by_cases hF : s = "F"
        · subst hF; decide
        · simp [truthy, genderFieldOk, hM, hF]
    | num n => simp [truthy, genderFieldOk]
    | boolean bb => simp [truthy, genderFieldOk]
    | null => simp [truthy, genderFieldOk]
    | date tt => simp [truthy, genderFieldOk]

theorem failsToken_eq (b : Obj) :
    failsToken b = !presentNonEmptyString (getF b "captchaToken") :=
  failsStr_eq _

theorem failsName_eq (b : Obj) :
    failsName b = !presentNonEmptyString (getF b "name") :=
  failsStr_eq _

theorem failsRoll_eq (b : Obj) :
    failsRoll b = !presentNonZeroNumber (getF b "roll_number") :=
  failsNum_eq _

theorem failsGender_eq (b : Obj) :
    failsGender b = !genderFieldOk (getF b "gender") :=
  failsGenderV_eq _

theorem failsEmailPresent_eq (b : Obj) :
    failsEmailPresent b = !presentNonEmptyString (getF b "email") :=
  failsStr_eq _

theorem failsAbout_eq (b : Obj) :
    failsAbout b = !presentNonEmptyString (getF b "about") :=
  failsStr_eq _

theorem emailFieldOk_eq (v : Option JSVal) :
    emailFieldOk v = (presentNonEmptyString v && emailRegexTest (strOf v)) := by
  rcases v with _ | x
  · rfl
  · cases x <;> simp [emailFieldOk, presentNonEmptyString, strOf]

theorem badOptional_eq (b : Obj) (f : String) :
    badOptional b f = !optionalOk (getF b f) := by
  unfold badOptional
  rcases h : getF b f with _ | x
  · rfl
  · cases x <;> simp [isString, optionalOk]

theorem firstBadOptional_eq_none (b : Obj) (l : List String) :
    firstBadOptional b l = none ↔
      (l.all (fun f => optionalOk (getF b f))) = true := by
  induction l with
  | nil => simp [firstBadOptional]
  | cons f rest ih =>
    rw [firstBadOptional, badOptional_eq]
    cases h : optionalOk (getF b f) <;> simp [h, ih]

theorem failsReferrer_eq (b : Obj)
    (h : optionalOk (getF b "referrer_email") = true) :
    failsReferrer b = !referrerOk (getF b "referrer_email") := by
  unfold failsReferrer
  rcases hv : getF b "referrer_email" with _ | x
  · rfl
  · rw [hv] at h
    cases x with
    | str s =>
      by_cases hs : s = ""
      · subst hs; decide
      · simp [truthy, referrerOk, strOf, hs]
    | num n => simp [optionalOk] at h
    | boolean bb => simp [optionalOk] at h
    | null => simp [optionalOk] at h
    | date tt => simp [optionalOk] at h

/-- The validator accepts exactly the acceptable records. -/
theorem valid_iff (b : Obj) :
    isValidFormData (some b) = ValidationResult.ok ↔
      acceptableRecord b = true := by
  simp only [isValidFormData, failsToken_eq, failsName_eq, failsRoll_eq,
    failsGender_eq, failsEmailPresent_eq, failsAbout_eq]
  cases h1 : presentNonEmptyString (getF b "captchaToken") with
  | false => simp [acceptableRecord, h1]
  | true =>
  cases h2 : presentNonEmptyString (getF b "name") with
  | false => simp [acceptableRecord, h1, h2]
  | true =>
  cases h3 : presentNonZeroNumber (getF b "roll_number") with
  | false => simp [acceptableRecord, h1, h2, h3]
  | true =>
  cases h4 : genderFieldOk (getF b "gender") with
  | false => simp [acceptableRecord, h1, h2, h3, h4]
  | true =>
  cases h5 : presentNonEmptyString (getF b "email") with
  | false => simp [acceptableRecord, emailFieldOk_eq, h1, h2, h3, h4, h5]
  | true =>
  cases h6 : presentNonEmptyString (getF b "about") with
  | false => simp [acceptableRecord, h1, h2, h3, h4, h5, h6]
  | true =>
  cases h7 : emailRegexTest (strOf (getF b "email")) with
  | false =>
    simp [acceptableRecord, emailFieldOk_eq, failsEmailFormat, h1, h2, h3, h4,
      h5, h6, h7]
  | true =>
  cases h8 : firstBadOptional b optionalStringFields with
  | some f =>
    have hall : (optionalStringFields.all
        (fun f => optionalOk (getF b f))) = false := by
      cases hx : optionalStringFields.all (fun f => optionalOk (getF b f)) with
      | false => rfl
      | true =>
        rw [← firstBadOptional_eq_none b optionalStringFields] at hx
        rw [h8] at hx
        exact absurd hx (by simp)
    simp [acceptableRecord, failsEmailFormat, h1, h2, h3, h4, h5, h6, h7, h8,
      hall]
  | none =>
    have hall : (optionalStringFields.all
        (fun f => optionalOk (getF b f))) = true :=
      (firstBadOptional_eq_none b optionalStringFields).mp h8
    have hropt : optionalOk (getF b "referrer_email") = true := by
      have := hall
      simp [optionalStringFields, List.all_cons] at this
      exact this.2.2.2.2.2
    rw [failsEmailFormat]
    cases h9 : referrerOk (getF b "referrer_email") with
    | false =>
      have hfr : failsReferrer b = true := by
        rw [failsReferrer_eq b hropt, h9]
        rfl
      simp [acceptableRecord, emailFieldOk_eq, h1, h2, h3, h4, h5, h6, h7, h8,
        hfr, h9]
    | true =>
      have hfr : failsReferrer b = false := by
        rw [failsReferrer_eq b hropt, h9]
        rfl
      simp [acceptableRecord, emailFieldOk_eq, h1, h2, h3, h4, h5, h6, h7, h8,
        hall, hfr, h9]

/- The reason the validator reports when one rule is the first to fail. -/

theorem err_of_token (b : Obj)
    (h : presentNonEmptyString (getF b "captchaToken") = false) :
    isValidFormData (some b) = .err "CAPTCHA token is required" := by
  simp [isValidFormData, failsToken_eq, h]

theorem err_of_name (b : Obj)
    (h1 : presentNonEmptyString (getF b "captchaToken") = true)
    (h2 : presentNonEmptyString (getF b "name") = false) :
    isValidFormData (some b) = .err "Name is required and must be a string" := by
  simp [isValidFormData, failsToken_eq, failsName_eq, h1, h2]

theorem err_of_roll (b : Obj)
    (h1 : presentNonEmptyString (getF b "captchaToken") = true)
    (h2 : presentNonEmptyString (getF b "name") = true)
    (h3 : presentNonZeroNumber (getF b "roll_number") = false) :
    isValidFormData (some b) =
      .err "Roll number is required and must be a number" := by
  simp [isValidFormData, failsToken_eq, failsName_eq, failsRoll_eq, h1, h2, h3]

theorem err_of_gender (b : Obj)
    (h1 : presentNonEmptyString (getF b "captchaToken") = true)
    (h2 : presentNonEmptyString (getF b "name") = true)
    (h3 : presentNonZeroNumber (getF b "roll_number") = true)
    (h4 : genderFieldOk (getF b "gender") = false) :
    isValidFormData (some b) =
      .err "Gender is required and must be \x27M\x27 or \x27F\x27" := by
  simp [isValidFormData, failsToken_eq, failsName_eq, failsRoll_eq,
    failsGender_eq, h1, h2, h3, h4]

theorem err_of_email (b : Obj)
    (h1 : presentNonEmptyString (getF b "captchaToken") = true)
    (h2 : presentNonEmptyString (getF b "name") = true)
    (h3 : presentNonZeroNumber (getF b "roll_number") = true)
    (h4 : genderFieldOk (getF b "gender") = true)
    (h5 : presentNonEmptyString (getF b "email") = false) :
    isValidFormData (some b) =
      .err "Email is required and must be a string" := by
  simp [isValidFormData, failsToken_eq, failsName_eq, failsRoll_eq,
    failsGender_eq, failsEmailPresent_eq, h1, h2, h3, h4, h5]

theorem err_of_about (b : Obj)
    (h1 : presentNonEmptyString (getF b "captchaToken") = true)
    (h2 : presentNonEmptyString (getF b "name") = true)
    (h3 : presentNonZeroNumber (getF b "roll_number") = true)
    (h4 : genderFieldOk (getF b "gender") = true)
    (h5 : presentNonEmptyString (getF b "email") = true)
    (h6 : presentNonEmptyString (getF b "about") = false) :
    isValidFormData (some b) =
      .err "About is required and must be a string" := by
  simp [isValidFormData, failsToken_eq, failsName_eq, failsRoll_eq,
    failsGender_eq, failsEmailPresent_eq, failsAbout_eq, h1, h2, h3, h4, h5, h6]

/- Lookup lemmas for the object operations used by the pipeline. -/

theorem getF_cons (p : String × JSVal) (rest : Obj) (k : String) :
    getF (p :: rest) k = if p.1 = k then some p.2 else getF rest k := by
  by_cases h : p.1 = k
  · simp [getF, List.find?_cons_of_pos, h]
  · simp [getF, List.find?_cons_of_neg, h]

theorem removeKey_cons (p : String × JSVal) (rest : Obj) (k : String) :
    removeKey (p :: rest) k =
      if p.1 = k then removeKey rest k else p :: removeKey rest k := by
  by_cases h : p.1 = k <;> simp [removeKey, List.filter_cons, h]

theorem getF_append (o o2 : Obj) (k : String) :
    getF (o ++ o2) k = ((getF o k).or (getF o2 k)) := by
  induction o with
  | nil => simp [getF]
  | cons p rest ih =>
    rw [List.cons_append, getF_cons, getF_cons]
    by_cases h : p.1 = k
    · simp [h]
    · simp only [h, if_neg, ite_false]
      exact ih

theorem getF_removeKey_self (o : Obj) (k : String) :
    getF (removeKey o k) k = none := by
  induction o with
  | nil => rfl
  | cons p rest ih =>
    rw [removeKey_cons]
    by_cases h : p.1 = k
    · rw [if_pos h]
      exact ih
    · rw [if_neg h, getF_cons, if_neg h]
      exact ih

theorem getF_removeKey_ne (o : Obj) (k k' : String) (hne : k' ≠ k) :
    getF (removeKey o k) k' = getF o k' := by
  induction o with
  | nil => rfl
  | cons p rest ih =>
    rw [removeKey_cons, getF_cons]
    by_cases h : p.1 = k
    · have hp : p.1 ≠ k' := by
        rw [h]
        exact fun hx => hne hx.symm
      rw [if_pos h, if_neg hp]
      exact ih
    · rw [if_neg h, getF_cons]
      by_cases hp : p.1 = k'
      · rw [if_pos hp, if_pos hp]
      · rw [if_neg hp, if_neg hp]
        exact ih

theorem getF_mapUpd_self (o : Obj) (k : String) (v : JSVal) :
    getF (o.map (fun p => if p.1 = k then (k, v) else p)) k =
      (if o.any (fun p => p.1 = k) then some v else none) := by
  induction o with
  | nil => rfl
  | cons p rest ih =>
    rw [List.map_cons]
    by_cases h : p.1 = k
    · rw [if_pos h, getF_cons]
      simp [List.any_cons, h]
    · rw [if_neg h, getF_cons, if_neg h]
      simp only [List.any_cons, decide_eq_false h, Bool.false_or]
      exact ih

theorem getF_mapUpd_ne (o : Obj) (k k' : String) (v : JSVal) (hne : k' ≠ k) :
    getF (o.map (fun p => if p.1 = k then (k, v) else p)) k' = getF o k' := by
  induction o with
  | nil => rfl
  | cons p rest ih =>
    rw [List.map_cons, getF_cons (k := k')]
    by_cases h : p.1 = k
    · have hk : ¬((k, v).1 = k') := fun hx => hne (hx.symm)
      have hp : p.1 ≠ k' := by
        rw [h]
        exact fun hx => hne hx.symm
      rw [if_pos h, getF_cons, if_neg hk, if_neg hp]
      exact ih
    · rw [if_neg h, getF_cons]
      by_cases hp : p.1 = k'
      · rw [if_pos hp, if_pos hp]
      · rw [if_neg hp, if_neg hp]
        exact ih

theorem getF_eq_none_of_not_any (o : Obj) (k : String)
    (h : o.any (fun p => p.1 = k) = false) : getF o k = none := by
  induction o with
  | nil => rfl
  | cons p rest ih =>
    simp only [List.any_cons, Bool.or_eq_false_iff, decide_eq_false_iff_not] at h
    rw [getF_cons, if_neg h.1]
    exact ih (by simpa using h.2)

theorem getF_setKey_self (o : Obj) (k : String) (v : JSVal) :
    getF (setKey o k v) k = some v := by
  unfold setKey
  by_cases ha : o.any (fun p => p.1 = k)
  · rw [if_pos ha, getF_mapUpd_self, if_pos ha]
  · rw [if_neg ha, getF_append,
      getF_eq_none_of_not_any o k ((Bool.not_eq_true _).mp ha)]
    rw [getF_cons, if_pos rfl]
    rfl

theorem getF_setKey_ne (o : Obj) (k k' : String) (v : JSVal) (hne : k' ≠ k) :
    getF (setKey o k v) k' = getF o k' := by
  unfold setKey
  by_cases ha : o.any (fun p => p.1 = k)
  · rw [if_pos ha, getF_mapUpd_ne o k k' v hne]
  · rw [if_neg ha, getF_append, getF_cons,
      if_neg (show ¬((k, v).1 = k') from fun hx => hne hx.symm)]
    rw [show getF ([] : Obj) k' = none from rfl]
    cases getF o k' <;> rfl

/- Per-field unfolding of requiredFieldOk at the literal field names. -/

theorem requiredFieldOk_token (b : Obj) :
    requiredFieldOk b "captchaToken" =
      presentNonEmptyString (getF b "captchaToken") := rfl

theorem requiredFieldOk_name (b : Obj) :
    requiredFieldOk b "name" = presentNonEmptyString (getF b "name") := rfl

theorem requiredFieldOk_roll (b : Obj) :
    requiredFieldOk b "roll_number" =
      presentNonZeroNumber (getF b "roll_number") := rfl

theorem requiredFieldOk_gender (b : Obj) :
    requiredFieldOk b "gender" = genderFieldOk (getF b "gender") := rfl

theorem requiredFieldOk_email (b : Obj) :
    requiredFieldOk b "email" = presentNonEmptyString (getF b "email") := rfl

theorem requiredFieldOk_about (b : Obj) :
    requiredFieldOk b "about" = presentNonEmptyString (getF b "about") := rfl

/- Concrete records used by the claim theorems and witnesses. -/

/-- Malformed email together with a missing about field. -/
def malformedEmailNoAbout : Obj :=
  [("captchaToken", JSVal.str "tok"), ("name", JSVal.str "Ann"),
   ("roll_number", JSVal.num 7), ("gender", JSVal.str "F"),
   ("email", JSVal.str "not-an-email")]

/-- All required fields present and well-formed. -/
def fullyValidRecord : Obj :=
  [("captchaToken", JSVal.str "tok"), ("name", JSVal.str "Ann"),
   ("roll_number", JSVal.num 7), ("gender", JSVal.str "F"),
   ("email", JSVal.str "a@b.co"), ("about", JSVal.str "hi")]

/-- All required fields fine, referrer_email present but numeric. -/
def numericReferrerRecord : Obj :=
  fullyValidRecord ++ [("referrer_email", JSVal.num 5)]

/-- All required fields fine, referrer_email present but empty. -/
def emptyReferrerRecord : Obj :=
  fullyValidRecord ++ [("referrer_email", JSVal.str "")]

/-- All fields fine except a malformed email. -/
def badEmailRecord : Obj :=
  [("captchaToken", JSVal.str "tok"), ("name", JSVal.str "Ann"),
   ("roll_number", JSVal.num 7), ("gender", JSVal.str "F"),
   ("email", JSVal.str "not-an-email"), ("about", JSVal.str "hi")]

/-- All fields fine except a missing about. -/
def aboutMissingRecord : Obj :=
  [("captchaToken", JSVal.str "tok"), ("name", JSVal.str "Ann"),
   ("roll_number", JSVal.num 7), ("gender", JSVal.str "F"),
   ("email", JSVal.str "a@b.co")]

/-- All fields fine except roll_number equal to zero. -/
def rollZeroRecord : Obj :=
  [("captchaToken", JSVal.str "tok"), ("name", JSVal.str "Ann"),
   ("roll_number", JSVal.num 0), ("gender", JSVal.str "F"),
   ("email", JSVal.str "a@b.co"), ("about", JSVal.str "hi")]

/-- C1 counterexample: for a record with a malformed email and a missing
about field, the validator reports the missing-about reason, not the
malformed-email reason, because the source checks about before it runs
the email pattern check. -/
theorem c1_order_counterexample :
    emailRegexTest "not-an-email" = false ∧
    getF malformedEmailNoAbout "about" = none ∧
    isValidFormData (some malformedEmailNoAbout) =
      ValidationResult.err "About is required and must be a string" ∧
    isValidFormData (some malformedEmailNoAbout) ≠
      ValidationResult.err "Invalid email format" := by
  refine ⟨by decide, by decide, by decide, by decide⟩

/-- C1 amended: the validator evaluates its rules in the code order
with short-circuit semantics — object check, token, name, roll_number,
gender, email presence, about, email pattern, optional-field types,
referrer_email pattern — so the reason returned is always that of the
first failing rule of this list; in particular, for a record with a
malformed email and a missing about, the missing-about reason is
returned. -/
theorem c1_rule_order_amended :
    (∀ body : Option Obj, isValidFormData body = specValidate body) ∧
    isValidFormData (some malformedEmailNoAbout) =
      ValidationResult.err "About is required and must be a string" := by
  constructor
  · intro body
    cases body with
    | none => rfl
    | some b =>
      simp only [isValidFormData, specValidate, codeOrderRules, firstFailure,
        ruleToken, ruleName, ruleRoll, ruleGender, ruleEmailPresent, ruleAbout,
        ruleEmailFormat, ruleOptionalTypes, ruleReferrerFormat]
      cases h1 : failsToken b with
      | true => simp [h1]
      | false =>
      cases h2 : failsName b with
      | true => simp [h1, h2]
      | false =>
      cases h3 : failsRoll b with
      | true => simp [h1, h2, h3]
      | false =>
      cases h4 : failsGender b with
      | true => simp [h1, h2, h3, h4]
      | false =>
      cases h5 : failsEmailPresent b with
      | true => simp [h1, h2, h3, h4, h5]
      | false =>
      cases h6 : failsAbout b with
      | true => simp [h1, h2, h3, h4, h5, h6]
      | false =>
      cases h7 : failsEmailFormat b with
      | true => simp [h1, h2, h3, h4, h5, h6, h7]
      | false =>
      cases h8 : firstBadOptional b optionalStringFields with
      | some f => simp [h1, h2, h3, h4, h5, h6, h7, h8]
      | none =>
      cases h9 : failsReferrer b with
      | true => simp [h1, h2, h3, h4, h5, h6, h7, h8, h9]
      | false => simp [h1, h2, h3, h4, h5, h6, h7, h8, h9]
  · decide

/-- C2 counterexample: a record whose required fields are all present
and well-typed but whose optional referrer_email holds a number is
rejected, refuting acceptance "regardless of the values of the optional
fields". -/
theorem c2_optional_counterexample :
    (requiredFields.all
      (fun fr => requiredFieldOk numericReferrerRecord fr.1)) = true ∧
    isValidFormData (some numericReferrerRecord) =
      ValidationResult.err "referrer_email must be a string if provided" ∧
    isValidFormData (some numericReferrerRecord) ≠ ValidationResult.ok := by
  refine ⟨by decide, by decide, by decide⟩

/-- C2 amended: every record missing a required field (captcha token,
name, roll_number, gender, email, about) is rejected; when every other
required field passes its presence-and-type rule, the reason names the
missing field; and every record whose required fields are present and
well-typed, whose present optional fields are text, and whose email
(and non-empty referrer_email) match the email pattern is accepted. -/
theorem c2_required_fields_amended (b : Obj) :
    (∀ fr ∈ requiredFields, getF b fr.1 = none →
      isValidFormData (some b) ≠ ValidationResult.ok) ∧
    (∀ fr ∈ requiredFields, getF b fr.1 = none →
      (∀ fr2 ∈ requiredFields, fr2 ≠ fr → requiredFieldOk b fr2.1 = true) →
      isValidFormData (some b) = ValidationResult.err fr.2) ∧
    (acceptableRecord b = true →
      isValidFormData (some b) = ValidationResult.ok) := by
  refine ⟨?_, ?_, fun h => (valid_iff b).mpr h⟩
  · intro fr hfr hnone hok
    rw [valid_iff] at hok
    fin_cases hfr <;>
      simp_all [acceptableRecord, presentNonEmptyString, presentNonZeroNumber,
        genderFieldOk, emailFieldOk]
  · intro fr hfr hnone hothers
    fin_cases hfr
    · exact err_of_token b (by rw [hnone]; rfl)
    · refine err_of_name b ?_ (by rw [hnone]; rfl)
      rw [← requiredFieldOk_token]
      exact hothers ("captchaToken", "CAPTCHA token is required") (by decide) (by decide)
    · refine err_of_roll b ?_ ?_ (by rw [hnone]; rfl)
      · rw [← requiredFieldOk_token]
        exact hothers ("captchaToken", "CAPTCHA token is required") (by decide) (by decide)
      · rw [← requiredFieldOk_name]
        exact hothers ("name", "Name is required and must be a string") (by decide) (by decide)
    · refine err_of_gender b ?_ ?_ ?_ (by rw [hnone]; rfl)
      · rw [← requiredFieldOk_token]
        exact hothers ("captchaToken", "CAPTCHA token is required") (by decide) (by decide)
      · rw [← requiredFieldOk_name]
        exact hothers ("name", "Name is required and must be a string") (by decide) (by decide)
      · rw [← requiredFieldOk_roll]
        exact hothers ("roll_number", "Roll number is required and must be a number") (by decide) (by decide)
    · refine err_of_email b ?_ ?_ ?_ ?_ (by rw [hnone]; rfl)
      · rw [← requiredFieldOk_token]
        exact hothers ("captchaToken", "CAPTCHA token is required") (by decide) (by decide)
      · rw [← requiredFieldOk_name]
        exact hothers ("name", "Name is required and must be a string") (by decide) (by decide)
      · rw [← requiredFieldOk_roll]
        exact hothers ("roll_number", "Roll number is required and must be a number") (by decide) (by decide)
      · rw [← requiredFieldOk_gender]
        exact hothers ("gender", "Gender is required and must be \x27M\x27 or \x27F\x27") (by decide) (by decide)
    · refine err_of_about b ?_ ?_ ?_ ?_ ?_ (by rw [hnone]; rfl)
      · rw [← requiredFieldOk_token]
        exact hothers ("captchaToken", "CAPTCHA token is required") (by decide) (by decide)
      · rw [← requiredFieldOk_name]
        exact hothers ("name", "Name is required and must be a string") (by decide) (by decide)
      · rw [← requiredFieldOk_roll]
        exact hothers ("roll_number", "Roll number is required and must be a number") (by decide) (by decide)
      · rw [← requiredFieldOk_gender]
        exact hothers ("gender", "Gender is required and must be \x27M\x27 or \x27F\x27") (by decide) (by decide)
      · rw [← requiredFieldOk_email]
        exact hothers ("email", "Email is required and must be a string") (by decide) (by decide)

/-- C2 witness: the amended statement applied to a record missing only
about, and to a fully valid record. -/
theorem c2_witness :
    isValidFormData (some aboutMissingRecord) =
      ValidationResult.err "About is required and must be a string" ∧
    isValidFormData (some fullyValidRecord) = ValidationResult.ok := by
  constructor
  · exact (c2_required_fields_amended aboutMissingRecord).2.1
      ("about", "About is required and must be a string")
      (by decide) (by decide) (by decide)
  · exact (c2_required_fields_amended fullyValidRecord).2.2 (by decide)

/-- C3 counterexample: a record whose referrer_email is present but
empty does not match the email pattern, yet the validator accepts it,
because the source guards the referrer pattern check by truthiness and
the empty string is falsy. -/
theorem c3_empty_referrer_counterexample :
    getF emptyReferrerRecord "referrer_email" = some (JSVal.str "") ∧
    emailRegexTest "" = false ∧
    isValidFormData (some emptyReferrerRecord) = ValidationResult.ok := by
  refine ⟨by decide, by decide, by decide⟩

/-- C3 amended: the validator rejects every record whose email does not
match the pattern and every record whose referrer_email is present,
non-empty and does not match the pattern (stated contrapositively: an
accepted record has a matching email, and its referrer_email, when a
present non-empty text, matches); a record with email a@b.co and all
other required fields valid is accepted, and one with email
not-an-email is rejected. -/
theorem c3_email_pattern_amended :
    (∀ b : Obj, isValidFormData (some b) = ValidationResult.ok →
      (∃ s, getF b "email" = some (JSVal.str s) ∧ emailRegexTest s = true) ∧
      (∀ s, getF b "referrer_email" = some (JSVal.str s) → s ≠ "" →
        emailRegexTest s = true)) ∧
    isValidFormData (some fullyValidRecord) = ValidationResult.ok ∧
    isValidFormData (some badEmailRecord) =
      ValidationResult.err "Invalid email format" := by
  refine ⟨?_, by decide, by decide⟩
  intro b hok
  rw [valid_iff] at hok
  simp only [acceptableRecord, Bool.and_eq_true] at hok
  obtain ⟨⟨⟨⟨⟨⟨⟨hT, hN⟩, hR⟩, hG⟩, hE⟩, hA⟩, hOpt⟩, hRef⟩ := hok
  constructor
  · rcases hv : getF b "email" with _ | v
    · rw [hv] at hE
      exact absurd hE (by simp [emailFieldOk])
    · rw [hv] at hE
      cases v with
      | str s =>
        simp only [emailFieldOk, Bool.and_eq_true] at hE
        exact ⟨s, rfl, hE.2⟩
      | num n => exact absurd hE (by simp [emailFieldOk])
      | boolean bb => exact absurd hE (by simp [emailFieldOk])
      | null => exact absurd hE (by simp [emailFieldOk])
      | date tt => exact absurd hE (by simp [emailFieldOk])
  · intro s hs hne
    rw [hs] at hRef
    simp only [referrerOk, Bool.or_eq_true, decide_eq_true_eq] at hRef
    rcases hRef with h | h
    · exact absurd h hne
    · exact h

/-- C3 witness: the amended statement applied to the fully valid
record. -/
theorem c3_witness :
    ∃ s, getF fullyValidRecord "email" = some (JSVal.str s) ∧
      emailRegexTest s = true :=
  (c3_email_pattern_amended.1 fullyValidRecord (by decide)).1

/-- C9: a record whose roll_number is the number 0 is always rejected,
and when the captcha token and name rules pass, the reason is the
roll-number reason, even though 0 is a number: the presence test is
JavaScript truthiness and the number 0 is falsy. -/
theorem c9_roll_zero_truthiness (b : Obj) :
    (getF b "roll_number" = some (JSVal.num 0) →
      isValidFormData (some b) ≠ ValidationResult.ok) ∧
    (getF b "roll_number" = some (JSVal.num 0) →
      presentNonEmptyString (getF b "captchaToken") = true →
      presentNonEmptyString (getF b "name") = true →
      isValidFormData (some b) =
        ValidationResult.err "Roll number is required and must be a number") := by
  constructor
  · intro h hok
    rw [valid_iff] at hok
    simp [acceptableRecord, h, presentNonZeroNumber] at hok
  · intro h h1 h2
    refine err_of_roll b h1 h2 ?_
    rw [h]
    decide

/-- C9 witness: the theorem applied to a concrete record whose
roll_number is 0 and whose other fields are valid. -/
theorem c9_witness :
    isValidFormData (some rollZeroRecord) =
      ValidationResult.err "Roll number is required and must be a number" :=
  (c9_roll_zero_truthiness rollZeroRecord).2 (by decide) (by decide) (by decide)

/- Branch lemmas for the submission pipeline. -/

theorem submitPipeline_dup (secretKey : Option String)
    (resp : Option SiteVerifyResp) (store : List Obj) (b : Obj) (t : Nat)
    (iso : String) (existing : Obj)
    (hval : isValidFormData (some b) = ValidationResult.ok)
    (hcap : (verifyCaptcha (getF b "captchaToken") secretKey resp).success
      = true)
    (hdup : findDuplicate store (removeKey b "captchaToken") = some existing) :
    submitPipeline secretKey resp store (some b) t iso =
      { outcome := SubmitOutcome.duplicate
          (if getF existing "roll_number" = getF b "roll_number"
           then "roll number" else "email"),
        ops := [StoreOp.connect, StoreOp.findDup, StoreOp.close],
        store := store } := by
  unfold submitPipeline
  rw [hval]
  simp only [Option.getD, hcap, Bool.not_true, Bool.false_eq_true, if_false]
  rw [hdup]
  simp only [getF_removeKey_ne b "captchaToken" "roll_number" (by decide)]

theorem submitPipeline_insert (secretKey : Option String)
    (resp : Option SiteVerifyResp) (store : List Obj) (b : Obj) (t : Nat)
    (iso : String)
    (hval : isValidFormData (some b) = ValidationResult.ok)
    (hcap : (verifyCaptcha (getF b "captchaToken") secretKey resp).success
      = true)
    (hdup : findDuplicate store (removeKey b "captchaToken") = none) :
    submitPipeline secretKey resp store (some b) t iso =
      { outcome := SubmitOutcome.success,
        ops := [StoreOp.connect, StoreOp.findDup, StoreOp.insertDoc,
          StoreOp.close],
        store := store ++ [persistedDoc b t iso] } := by
  unfold submitPipeline
  rw [hval]
  simp only [Option.getD, hcap, Bool.not_true, Bool.false_eq_true, if_false]
  rw [hdup]

/- Concrete pipeline scenario data. -/

/-- A collaborator response that accepts without reporting a score. -/
def acceptResp : Option SiteVerifyResp :=
  some { success := true, score := none }

/-- First scenario record: roll_number 7, email ann@x.com. -/
def annRecord : Obj :=
  [("captchaToken", JSVal.str "valid"), ("name", JSVal.str "Ann"),
   ("roll_number", JSVal.num 7), ("gender", JSVal.str "F"),
   ("email", JSVal.str "ann@x.com"), ("about", JSVal.str "hi")]

/-- Second scenario record: same roll_number 7, different email. -/
def bobRecord : Obj :=
  [("captchaToken", JSVal.str "valid"), ("name", JSVal.str "Bob"),
   ("roll_number", JSVal.num 7), ("gender", JSVal.str "M"),
   ("email", JSVal.str "bob@x.com"), ("about", JSVal.str "yo")]

/-- C4: after validation and the abuse check pass, the pipeline queries
the store for a record matching on roll_number or email; a hit fails
the submission as a duplicate whose detail names the collided field,
with roll_number winning the tie-break, and no insert happens; a miss
inserts; and submitting two records with the same roll_number but
different emails sequentially into an empty store yields one success
and then one duplicate naming the roll number. -/
theorem c4_duplicate_check :
    (∀ secretKey resp store b t iso existing,
      isValidFormData (some b) = ValidationResult.ok →
      (verifyCaptcha (getF b "captchaToken") secretKey resp).success = true →
      findDuplicate store (removeKey b "captchaToken") = some existing →
      submitPipeline secretKey resp store (some b) t iso =
        { outcome := SubmitOutcome.duplicate
            (if getF existing "roll_number" = getF b "roll_number"
             then "roll number" else "email"),
          ops := [StoreOp.connect, StoreOp.findDup, StoreOp.close],
          store := store }) ∧
    (∀ secretKey resp store b t iso,
      isValidFormData (some b) = ValidationResult.ok →
      (verifyCaptcha (getF b "captchaToken") secretKey resp).success = true →
      findDuplicate store (removeKey b "captchaToken") = none →
      (submitPipeline secretKey resp store (some b) t iso).outcome =
        SubmitOutcome.success) ∧
    ((submitPipeline (some "k") acceptResp [] (some annRecord) 0 "T0").outcome
      = SubmitOutcome.success ∧
     (submitPipeline (some "k") acceptResp
        ((submitPipeline (some "k") acceptResp [] (some annRecord) 0
          "T0").store)
        (some bobRecord) 1 "T1").outcome
      = SubmitOutcome.duplicate "roll number") := by
  refine ⟨?_, ?_, by decide, by decide⟩
  · intro secretKey resp store b t iso existing hval hcap hdup
    exact submitPipeline_dup secretKey resp store b t iso existing hval hcap
      hdup
  · intro secretKey resp store b t iso hval hcap hdup
    rw [submitPipeline_insert secretKey resp store b t iso hval hcap hdup]

/-- C4 witness: the duplicate branch applied to a store holding the
persisted first record and a second record with the same roll number. -/
theorem c4_witness :
    (submitPipeline (some "k") acceptResp [persistedDoc annRecord 0 "T0"]
      (some bobRecord) 1 "T1").outcome = SubmitOutcome.duplicate
        "roll number" := by
  rw [c4_duplicate_check.1 (some "k") acceptResp [persistedDoc annRecord 0 "T0"]
    bobRecord 1 "T1" (persistedDoc annRecord 0 "T0") (by decide) (by decide)
    (by decide)]
  decide

/-- C5: every successful submission appends to the store exactly the
submitted record with the captcha token removed plus the two
server-assigned fields createdAt (structured timestamp) and submittedAt
(ISO-8601 text); every other submitted field is stored unchanged, the
persisted document never contains the captcha token, and it holds no
key beyond the submitted ones and the two server-assigned ones. -/
theorem c5_persisted_document (secretKey : Option String)
    (resp : Option SiteVerifyResp) (store : List Obj) (b : Obj) (t : Nat)
    (iso : String)
    (hsucc : (submitPipeline secretKey resp store (some b) t iso).outcome =
      SubmitOutcome.success) :
    (submitPipeline secretKey resp store (some b) t iso).store =
      store ++ [persistedDoc b t iso] ∧
    getF (persistedDoc b t iso) "captchaToken" = none ∧
    getF (persistedDoc b t iso) "createdAt" = some (JSVal.date t) ∧
    getF (persistedDoc b t iso) "submittedAt" = some (JSVal.str iso) ∧
    (∀ k, k ≠ "captchaToken" → k ≠ "createdAt" → k ≠ "submittedAt" →
      getF (persistedDoc b t iso) k = getF b k) ∧
    (∀ k, getF (persistedDoc b t iso) k ≠ none →
      getF b k ≠ none ∨ k = "createdAt" ∨ k = "submittedAt") := by
  have hTok : getF (persistedDoc b t iso) "captchaToken" = none := by
    rw [persistedDoc, getF_setKey_ne _ _ _ _ (by decide),
      getF_setKey_ne _ _ _ _ (by decide), getF_removeKey_self]
  have hOther : ∀ k, k ≠ "captchaToken" → k ≠ "createdAt" →
      k ≠ "submittedAt" → getF (persistedDoc b t iso) k = getF b k := by
    intro k hk1 hk2 hk3
    rw [persistedDoc, getF_setKey_ne _ _ _ _ hk3, getF_setKey_ne _ _ _ _ hk2,
      getF_removeKey_ne _ _ _ hk1]
  refine ⟨?_, hTok, ?_, ?_, hOther, ?_⟩
  · unfold submitPipeline at hsucc ⊢
    cases hval : isValidFormData (some b) with
    | err e =>
      rw [hval] at hsucc
      simp at hsucc
    | ok =>
      rw [hval] at hsucc
      simp only [Option.getD] at hsucc ⊢
      cases hcap : (verifyCaptcha (getF b "captchaToken") secretKey
          resp).success with
      | false => simp [hcap] at hsucc
      | true =>
        cases hdup : findDuplicate store (removeKey b "captchaToken") with
        | some e => simp [hcap, hdup] at hsucc
        | none => simp [hcap, hdup]
  · rw [persistedDoc, getF_setKey_ne _ _ _ _ (by decide), getF_setKey_self]
  · rw [persistedDoc, getF_setKey_self]
  · intro k hk
    by_cases hc : k = "createdAt"
    · exact Or.inr (Or.inl hc)
    · by_cases hs : k = "submittedAt"
      · exact Or.inr (Or.inr hs)
      · by_cases hct : k = "captchaToken"
        · rw [hct] at hk
          exact absurd hTok hk
        · rw [hOther k hct hc hs] at hk
          exact Or.inl hk

/-- C5 witness: the statement applied to a concrete successful
submission into an empty store. -/
theorem c5_witness :
    (submitPipeline (some "k") acceptResp [] (some annRecord) 0
      "2025-01-01T00:00:00.000Z").store =
      [] ++ [persistedDoc annRecord 0 "2025-01-01T00:00:00.000Z"] ∧
    getF (persistedDoc annRecord 0 "2025-01-01T00:00:00.000Z")
      "captchaToken" = none := by
  have h := c5_persisted_document (some "k") acceptResp [] annRecord 0
    "2025-01-01T00:00:00.000Z" (by decide)
  exact ⟨h.1, h.2.1⟩

/-- C6: whenever the abuse-check collaborator reports the submission as
rejected, the pipeline performs no store operation at all and the store
is untouched; a missing or empty token is rejected, and so is a
response whose score is below one half. -/
theorem c6_abuse_rejected_no_store :
    (∀ secretKey resp store body t iso,
      (∀ b, body = some b →
        (verifyCaptcha (getF b "captchaToken") secretKey resp).success
          = false) →
      (submitPipeline secretKey resp store body t iso).ops = [] ∧
      (submitPipeline secretKey resp store body t iso).store = store) ∧
    (∀ secretKey resp,
      (verifyCaptcha none secretKey resp).success = false ∧
      (verifyCaptcha (some (JSVal.str "")) secretKey resp).success = false) ∧
    (∀ tok sk q, q < mkRat 1 2 →
      (verifyCaptcha tok (some sk)
        (some { success := true, score := some q })).success = false) := by
  refine ⟨?_, ?_, ?_⟩
  · intro secretKey resp store body t iso h
    cases body with
    | none => exact ⟨rfl, rfl⟩
    | some b =>
      cases hval : isValidFormData (some b) with
      | err e =>
        unfold submitPipeline
        rw [hval]
        exact ⟨rfl, rfl⟩
      | ok =>
        have hcap := h b rfl
        unfold submitPipeline
        rw [hval]
        simp [Option.getD, hcap]
  · intro secretKey resp
    constructor
    · rfl
    · rfl
  · intro tok sk q hq
    unfold verifyCaptcha
    cases htok : truthy tok with
    | false => simp
    | true =>
      by_cases hsk : sk = ""
      · simp [htok, hsk]
      · simp [htok, hsk, hq]

/-- C6 witness: the statement applied to a rejecting collaborator, a
falsy token, and a score of zero. -/
theorem c6_witness :
    (submitPipeline (some "k") (some { success := false, score := none }) []
      (some fullyValidRecord) 0 "T").ops = [] ∧
    (verifyCaptcha none (some "k") acceptResp).success = false ∧
    (verifyCaptcha (some (JSVal.str "t")) (some "k")
      (some { success := true, score := some 0 })).success = false := by
  refine ⟨?_, ?_, ?_⟩
  · exact ((c6_abuse_rejected_no_store.1 (some "k")
      (some { success := false, score := none }) [] (some fullyValidRecord) 0
      "T") (fun b hb => by rw [← Option.some.inj hb]; decide)).1
  · exact (c6_abuse_rejected_no_store.2.1 (some "k") acceptResp).1
  · exact c6_abuse_rejected_no_store.2.2 (some (JSVal.str "t")) "k" 0
      (by decide)

/-- C7: with a valid admin key, exporting an empty store yields an
empty 200 text/csv body; exporting a non-empty store yields a 200
text/csv body whose header row is the first document's field names
joined by commas, followed by exactly one serialized row per document,
rows joined by newlines, and every text field is wrapped in double
quotes with the embedded double quotes doubled. -/
theorem c7_csv_export (providedKey actualKey : Option String)
    (docs : List Obj) (h : validateAdminKey providedKey actualKey = true) :
    (docs = [] → csvEndpoint providedKey actualKey docs =
      { status := 200, contentType := "text/csv",
        payload := Payload.text "" }) ∧
    (∀ d ds, docs = d :: ds →
      csvEndpoint providedKey actualKey docs =
        { status := 200, contentType := "text/csv",
          payload := Payload.text (String.intercalate "\n"
            (String.intercalate "," (d.map (fun p => p.1)) ::
              docs.map (csvRow (d.map (fun p => p.1))))) } ∧
      (docs.map (csvRow (d.map (fun p => p.1)))).length = docs.length) ∧
    (∀ row f s, getF row f = some (JSVal.str s) →
      jsToCsvValue (getF row f) = "\"" ++ escapeQuotes s ++ "\"") ∧
    escapeQuotes "he said \"hi\"" = "he said \"\"hi\"\"" := by
  refine ⟨?_, ?_, ?_, by decide⟩
  · intro hd
    subst hd
    simp [csvEndpoint, h]
  · intro d ds hd
    subst hd
    constructor
    · simp [csvEndpoint, h, csvOfDocs]
    · simp [List.length_map]
  · intro row f s hs
    rw [hs]
    rfl

/-- C7 witness: the export applied with a matching key to an empty
store and to a one-document store. -/
theorem c7_witness :
    csvEndpoint (some "k") (some "k") [] =
      { status := 200, contentType := "text/csv",
        payload := Payload.text "" } ∧
    (csvEndpoint (some "k") (some "k")
      [[("a", JSVal.str "x")]]).payload = Payload.text "a\n\"x\"" := by
  constructor
  · exact (c7_csv_export (some "k") (some "k") [] (by decide)).1 rfl
  · have hstep := ((c7_csv_export (some "k") (some "k")
      [[("a", JSVal.str "x")]] (by decide)).2.1
      [("a", JSVal.str "x")] [] rfl).1
    rw [hstep]
    decide

/-- C8 counterexample: the serverless function's /csv handler rejects a
wrong admin key of the same length as the real one with status 401, not
403 as the claim states. -/
theorem c8_status_counterexample :
    validateAdminKey (some "wrong") (some "right") = false ∧
    (csvEndpoint (some "wrong") (some "right") []).status = 401 ∧
    (csvEndpoint (some "wrong") (some "right") []).status ≠ 403 := by
  refine ⟨by decide, by decide, by decide⟩

/-- C8 amended: every CSV export request whose shared secret is missing
or does not equal the configured admin key is rejected with no CSV data
— with status 401 in the serverless function's /csv handler and status
403 in the express server's /to_csv handler — and the comparison (a
length check followed by a constant-time byte comparison) accepts
exactly the configured key. -/
theorem c8_admin_key_amended :
    (∀ providedKey actualKey docs,
      validateAdminKey providedKey actualKey = false →
      (csvEndpoint providedKey actualKey docs).status = 401 ∧
      (csvEndpoint providedKey actualKey docs).payload =
        Payload.jsonErr "Invalid admin key") ∧
    (∀ a p, toCsvEndpoint a p ≠ (403, false) →
      ∃ s, a = some s ∧ p = some s ∧ s ≠ "") ∧
    (∀ providedKey actualKey,
      validateAdminKey providedKey actualKey = true →
      providedKey = actualKey) := by
  refine ⟨?_, ?_, ?_⟩
  · intro providedKey actualKey docs h
    constructor <;> simp [csvEndpoint, h]
  · intro a p hne
    cases a with
    | none => exact absurd rfl hne
    | some a0 =>
      cases p with
      | none => exact absurd rfl hne
      | some p0 =>
        by_cases h0 : a0 = ""
        · simp [toCsvEndpoint, h0] at hne
        · by_cases h1 : p0 = ""
          · simp [toCsvEndpoint, h0, h1] at hne
          · by_cases heq : a0 = p0
            · exact ⟨a0, rfl, by rw [heq], h0⟩
            · simp [toCsvEndpoint, h0, h1, heq] at hne
  · intro providedKey actualKey h
    cases providedKey with
    | none => simp [validateAdminKey] at h
    | some p =>
      cases actualKey with
      | none => simp [validateAdminKey] at h
      | some a =>
        simp only [validateAdminKey] at h
        split_ifs at h
        all_goals simp_all

/-- C8 witness: the amended statement applied to a wrong key against
the function variant and a matching key against the express variant. -/
theorem c8_witness :
    (csvEndpoint (some "bad") (some "good") []).status = 401 ∧
    (∃ s, (some "sec" : Option String) = some s ∧
      (some "sec" : Option String) = some s ∧ s ≠ "") := by
  constructor
  · exact (c8_admin_key_amended.1 (some "bad") (some "good") [] (by decide)).1
  · exact c8_admin_key_amended.2.1 (some "sec") (some "sec") (by decide)

/-- C10: an unset or empty configured admin key makes the admin-key
check return false for every provided key, so every CSV export request
is rejected, in both the serverless function (401) and the express
server (403): a missing configured secret fails closed. -/
theorem c10_fail_closed (providedKey : Option String) (docs : List Obj) :
    validateAdminKey providedKey none = false ∧
    validateAdminKey providedKey (some "") = false ∧
    (csvEndpoint providedKey none docs).status = 401 ∧
    (csvEndpoint providedKey none docs).payload =
      Payload.jsonErr "Invalid admin key" ∧
    (csvEndpoint providedKey (some "") docs).status = 401 ∧
    (csvEndpoint providedKey (some "") docs).payload =
      Payload.jsonErr "Invalid admin key" ∧
    toCsvEndpoint none providedKey = (403, false) ∧
    toCsvEndpoint (some "") providedKey = (403, false) := by
  have h1 : validateAdminKey providedKey none = false := by
    cases providedKey <;> rfl
  have h2 : validateAdminKey providedKey (some "") = false := by
    cases providedKey with
    | none => rfl
    | some p => simp [validateAdminKey]
  refine ⟨h1, h2, ?_, ?_, ?_, ?_, ?_, ?_⟩
  · simp [csvEndpoint, h1]
  · simp [csvEndpoint, h1]
  · simp [csvEndpoint, h2]
  · simp [csvEndpoint, h2]
  · cases providedKey <;> rfl
  · cases providedKey with
    | none => rfl
    | some p => simp [toCsvEndpoint]
